import Mathlib

/-!
Shallow embedding of `src/exporter.py` (the `GitHubExporter` textual app).

Modelling conventions:
* Python strings are `String`; wherever character-level computation is
  needed (lexicographic comparison, lower/upper casing, `rstrip`,
  `split`), we work on `String.data : List Char`, which matches CPython
  code-point semantics for the ASCII data handled by this program.
* OS paths are modelled as lists of segments (`List String`); the source
  builds them with `os.path.join` / `os.path.relpath` and tears them
  apart with `split(os.sep)` and `os.path.dirname`, which become list
  operations.  Rendering a path back to the string the source stores is
  `pathChars` (segments interleaved with the separator).
* The filesystem seen by `os.walk` is a finite tree of `FSEntry`.  The
  walk is written with an explicit fuel argument so that it is a
  structural (kernel-computable) recursion; every theorem about it is
  quantified over the fuel, and a concrete run just needs enough fuel.
* The mutable `App` object is an `AppState` record.  Filesystem side
  effects are explicit fields: `existing_dirs` is the multiset of
  temporary directories currently on disk (directories are named by the
  allocation counter `next_dir`, since `tempfile.mkdtemp` returns fresh
  names), `written` is the destination file written by an export, and
  `armed_timers` is the set of scheduled `set_timer` instances (named by
  the counter `next_timer`).  `clone_count` counts spawned
  `git clone` subprocesses.
* External boundaries are parameters: the path component produced by
  `urllib.parse.urlparse(url).path` is an input `path : List Char`, the
  clone subprocess result is `(cloneOk, stderrText)`, and the workspace
  contents read back by the export loop are an association list
  `List (String × Option String)` mapping a relative path to `some c`
  (regular file whose bytes decode as UTF-8 to `c`) or `none` (regular
  file whose bytes are not valid UTF-8, so `f.read()` raises
  `UnicodeDecodeError`); a path absent from the list is not a regular
  file (`os.path.isfile` is false).
-/

namespace GHExporter

/-! ### Character and string primitives -/

/-- Python `s.startswith(".")` for a file or directory name. -/
def isDotName (n : String) : Bool :=
  match n.data with
  | c :: _ => c = '.'
  | [] => false

/-- Python string `<` (code-point lexicographic) on character lists. -/
def strLt (a b : List Char) : Bool := decide (a < b)

/-- Python string `<=`, as used by `sorted` / `list.sort`: `a <= b` iff not `b < a`. -/
def strLe (a b : List Char) : Bool := !(strLt b a)

/-- Python `s.lower()` on a character list (ASCII case mapping). -/
def lowerL (s : List Char) : List Char := s.map Char.toLower

/-- Python `s.upper()` on a character list (ASCII case mapping). -/
def upperL (s : List Char) : List Char := s.map Char.toUpper

/-- Python `s.isupper()`: at least one cased character and no cased
character is lowercase (cased = alphabetic in the ASCII range handled
here). -/
def pyIsUpper (s : String) : Bool :=
  s.data.any (·.isAlpha) && s.data.all (fun c => !c.isAlpha || c.isUpper)

/-- Python `s.split("/")` (single-character separator, no maxsplit):
always returns at least one piece; the empty string yields `[""]`. -/
def splitSlash : List Char → List (List Char)
  | [] => [[]]
  | c :: cs =>
    match splitSlash cs with
    | [] => [[]]
    | seg :: rest => if c = '/' then [] :: seg :: rest else (c :: seg) :: rest

/-- The character set denoted by the argument of
`content.rstrip("\n\n###\n\n")` in `action_export` (line 224): Python
`str.rstrip` treats its argument as a set of characters, here
`\x7b newline, hash \x7d`. -/
def stripChar (c : Char) : Bool := c == '\n' || c == '#'

/-- Python `content.rstrip("\n\n###\n\n")`: remove the longest trailing
run of characters drawn from `stripChar`. -/
def pyRstrip (s : List Char) : List Char :=
  (s.reverse.dropWhile stripChar).reverse

/-! ### Export document assembly (`action_export`, lines 210-224) -/

/-- The inter-file delimiter `"\n\n###\n\n"` that ends every block of the
export template. -/
def delim : List Char := "\n\n###\n\n".data

/-- One block of the export document, from the f-string on line 217:
`File: \x7brelative_path\x7d\n\n（three backticks）\n\x7bfile_content\x7d...`;
written as the pre-delimiter part followed by `delim`. -/
def fileBlock (rel content : String) : List Char :=
  ("File: ".data ++ rel.data ++ "\n\n```\n".data ++ content.data ++ "\n```".data) ++ delim

/-- The accumulated `content` variable of the export loop when every
selected file exists and decodes: the concatenation of the blocks in
selection order. -/
def exportBody (files : List (String × String)) : List Char :=
  (files.map (fun pc => fileBlock pc.1 pc.2)).flatten

/-- The document text written to the destination file (line 224):
`content.rstrip("\n\n###\n\n")`. -/
def exportDocument (files : List (String × String)) : List Char :=
  pyRstrip (exportBody files)

/-! ### Application state -/

/-- The mutable state of the `GitHubExporter` app instance, together
with the explicit filesystem effects described in the header comment. -/
structure AppState where
  temp_dir : Option Nat := none
  existing_dirs : List Nat := []
  next_dir : Nat := 0
  repo_name : String := ""
  export_name_value : String := ""
  error_message : String := ""
  clone_count : Nat := 0
  exit_timer : Option Nat := none
  armed_timers : List Nat := []
  next_timer : Nat := 0
  notices : List String := []
  written : Option (String × List Char) := none
deriving DecidableEq

/-! ### Fetch (`action_fetch`, lines 89-127) -/

/-- The `except` handler of `action_fetch` (lines 121-125): show the
error and, if `self.temp_dir` is set, `shutil.rmtree` it and clear it. -/
def fetch_cleanup (st : AppState) (msg : String) : AppState :=
  match st.temp_dir with
  | some d =>
    { st with error_message := msg
              existing_dirs := st.existing_dirs.erase d
              temp_dir := none }
  | none => { st with error_message := msg }

/-- `action_fetch` (lines 89-127).  `url` is the text of the URL input;
`path` is `urlparse(url).path` (external library boundary); `cloneOk`
and `stderrText` are the exit status and captured stderr of the
`git clone` subprocess.  The unpacking
`_, user, repo, *_ = parsed_url.path.split("/")` (line 101) succeeds
iff the split has at least three pieces, and raises `ValueError`
(caught by the `except` block) otherwise.  Note that the body never
removes a workspace left over from a previous successful fetch before
`tempfile.mkdtemp()` reassigns `self.temp_dir` (line 103). -/
def action_fetch (st : AppState) (url : String) (path : List Char)
    (cloneOk : Bool) (stderrText : String) : AppState :=
  if url == "" then { st with error_message := "Please enter a GitHub URL" }
  else
    let st1 := { st with error_message := "" }
    match splitSlash path with
    | _ :: _user :: repoSeg :: _ =>
      let st2 := { st1 with repo_name := String.mk repoSeg }
      let d := st2.next_dir
      let st3 := { st2 with temp_dir := some d
                            existing_dirs := st2.existing_dirs ++ [d]
                            next_dir := d + 1 }
      let st4 := { st3 with clone_count := st3.clone_count + 1 }
      if cloneOk then
        { st4 with
            notices := st4.notices ++ ["Repository cloned successfully: " ++ st4.repo_name]
            export_name_value := st4.repo_name ++ ".txt" }
      else
        fetch_cleanup st4 ("Error: Git clone failed: " ++ stderrText)
    | parts =>
      fetch_cleanup st1
        ("Error: not enough values to unpack (expected at least 3, got "
          ++ toString parts.length ++ ")")

/-! ### Export (`action_export`, lines 193-238) and the exit timer -/

/-- Lookup of a selected relative path in the workspace: `some (some c)`
when it is a regular file decoding to `c`, `some none` when it is a
regular file that is not valid UTF-8, `none` when `os.path.isfile` is
false. -/
def findFile (fs : List (String × Option String)) (p : String) : Option (Option String) :=
  (fs.find? (fun e => e.1 == p)).map (·.2)

/-- The export read loop (lines 211-218): skip paths that are not
regular files; a `UnicodeDecodeError` on any file aborts the whole
`try` block (there is no per-file handler), otherwise append this
file's block to `content`. -/
def buildContent (fs : List (String × Option String)) :
    List String → Except String (List Char)
  | [] => .ok []
  | p :: ps =>
    match findFile fs p with
    | none => buildContent fs ps
    | some none => .error "UnicodeDecodeError: invalid start byte"
    | some (some c) =>
      match buildContent fs ps with
      | .error e => .error e
      | .ok rest => .ok (fileBlock p c ++ rest)

/-- `action_export` (lines 193-238).  `fs` is the workspace contents,
`selected` the list held by `file_list.selected` (catalog order), and
`nameValue` the text of the export-name input.  On success the rstripped
document is written to the destination and a fresh exit timer is armed
by `self.exit_timer = self.set_timer(2, self.exit_app)` (line 230) —
without stopping a previously armed timer, which stays scheduled. -/
def action_export (st : AppState) (fs : List (String × Option String))
    (selected : List String) (nameValue : String) : AppState :=
  match st.temp_dir with
  | none => { st with error_message := "No repository cloned. Please fetch files first." }
  | some _ =>
    if selected.isEmpty then { st with error_message := "No files selected" }
    else
      let st1 := { st with error_message := "" }
      match buildContent fs selected with
      | .error e => { st1 with error_message := "Error exporting files: " ++ e }
      | .ok content =>
        let ename := if nameValue == "" then st1.repo_name ++ ".txt" else nameValue
        let t := st1.next_timer
        { st1 with
            written := some (ename, pyRstrip content)
            notices := st1.notices ++
              ["Files exported to " ++ ename,
               "Automatically exiting in 2 seconds. Press c to cancel."]
            exit_timer := some t
            armed_timers := st1.armed_timers ++ [t]
            next_timer := t + 1 }

/-- `action_cancel_exit` (lines 240-245): if a timer reference is held,
stop exactly that timer instance, clear the reference and notify. -/
def action_cancel_exit (st : AppState) : AppState :=
  match st.exit_timer with
  | some t =>
    { st with armed_timers := st.armed_timers.erase t
              exit_timer := none
              notices := st.notices ++ ["Automatic exit cancelled."] }
  | none => st

/-! ### Catalog builder (`populate_file_list`, lines 129-188) -/

/-- A directory tree as seen by `os.walk`: children are in listing
order. -/
inductive FSEntry where
  | file (name : String)
  | dir (name : String) (children : List FSEntry)

/-- The exact-name denylist `excluded_files` (lines 131-139). -/
def excluded_files : List String :=
  ["tsconfig.types.json", "LICENSE", "Dockerfile", "bower.json",
   "package-lock.json", "tsconfig.json", "docker-compose.yml"]

/-- The suffix denylist `excluded_patterns` (line 140). -/
def excluded_patterns : List String := ["config.json", "config.js"]

/-- The two file-level `continue` tests of the walk loop (lines
164-170): a file is kept iff it is neither a dotfile other than
`.cursorrules`, nor a member of `excluded_files`, nor carries a suffix
from `excluded_patterns` (Python `file.endswith(pattern)`). -/
def includeFile (file : String) : Bool :=
  !((isDotName file && file != ".cursorrules") || excluded_files.contains file)
    && !(excluded_patterns.any (fun pat => List.isSuffixOf pat.data file.data))

/-- The `os.walk(root_path)` loop (lines 158-173) with its directory
pruning: `.git` is removed from `dirs` (line 160) and every remaining
dot-directory is dropped (line 162), so neither is descended into; each
kept file contributes its relative path (as segments).  `fuel` bounds
the recursion depth + width so the recursion is structural; with fuel
at least the size of the tree the walk is exhaustive.  Files of one
directory are emitted in listing order (the only order downstream
grouping can observe). -/
def walk : Nat → List String → List FSEntry → List (List String)
  | 0, _, _ => []
  | _ + 1, _, [] => []
  | f + 1, pre, .file n :: es =>
    (if includeFile n then [pre ++ [n]] else []) ++ walk f pre es
  | f + 1, pre, .dir n cs :: es =>
    (if n == ".git" || isDotName n then [] else walk f (pre ++ [n]) cs) ++ walk f pre es

/-- Render a segment path to the string the source stores
(`os.path.join` with the normalized separator). -/
def pathChars : List String → List Char
  | [] => []
  | [s] => s.data
  | s :: rest => s.data ++ '/' :: pathChars rest

/-- Python `os.path.dirname` of a relative path, as segments. -/
def dirKey (p : List String) : List String := p.dropLast

/-- Stable ascending sort, as performed by Python `sorted` /
`list.sort` with a key inducing the boolean total preorder `le`. -/
def pySort (le : α → α → Bool) (l : List α) : List α :=
  List.insertionSort (fun a b => le a b = true) l

/-- Comparison of two `file_dict` keys by `sorted(file_dict.keys())`
(line 180): plain Python string order on dirname strings. -/
def keyLe (a b : List String) : Bool := strLe (pathChars a) (pathChars b)

/-- Comparison used by `file_dict[directory].sort(key=lambda x:
x.lower())` (line 177): case-insensitive order on the full relative
path string. -/
def groupLe (a b : List String) : Bool :=
  strLe (lowerL (pathChars a)) (lowerL (pathChars b))

/-- The `sort_key` helper (lines 143-154): tier 0 for a basename whose
uppercasing is `README.MD` or which `isupper()`, tier 1 for other
root-level files (`len(parts) == 1`), tier 2 for the rest; within a
tier the lowercased full path decides. -/
def sort_key (p : List String) : Nat × List Char :=
  let last := p.getLastD ""
  if upperL last.data == "README.MD".data || pyIsUpper last then
    (0, lowerL (pathChars p))
  else if p.length == 1 then
    (1, lowerL (pathChars p))
  else
    (2, lowerL (pathChars p))

/-- Python tuple comparison of two `sort_key` values, as used by
`sorted(selections, key=sort_key)` (line 185). -/
def sortKeyLe (a b : List String) : Bool :=
  (sort_key a).1 < (sort_key b).1 ||
    ((sort_key a).1 == (sort_key b).1 && strLe (sort_key a).2 (sort_key b).2)

/-- `populate_file_list` (lines 129-188): walk the workspace, group the
kept relative paths by dirname into `file_dict` (a defaultdict keyed by
dirname, values in walk order), sort each group case-insensitively,
emit the groups in sorted-key order, then re-sort the whole list by
`sort_key`.  Both Python sorts are stable, which `pySort` reproduces. -/
def populate_file_list (fuel : Nat) (root : List FSEntry) : List (List String) :=
  let paths := walk fuel [] root
  let keys := (paths.map dirKey).dedup
  let selections :=
    ((pySort keyLe keys).map
      (fun k => pySort groupLe (paths.filter (fun p => dirKey p == k)))).flatten
  pySort sortKeyLe selections

/-! ## Theorems -/

theorem delim_rev : delim.reverse = ['\n', '\n', '#', '#', '#', '\n', '\n'] := by decide

theorem dropWhile_strip_delim (t : List Char) :
    List.dropWhile stripChar
        ('\n' :: '\n' :: '#' :: '#' :: '#' :: '\n' :: '\n' :: '`' :: t) = '`' :: t := by
  have h1 : stripChar '\n' = true := rfl
  have h2 : stripChar '#' = true := rfl
  have h3 : stripChar '`' = false := rfl
  simp [List.dropWhile_cons, h1, h2, h3]

theorem pyRstrip_block (Y : List Char) (rel c : String) :
    pyRstrip (Y ++ fileBlock rel c) ++ delim = Y ++ fileBlock rel c := by
  have hB : ("\n```".data : List Char) = ['\n', '`', '`', '`'] := by decide
  have hA : fileBlock rel c
      = ("File: ".data ++ rel.data ++ "\n\n```\n".data ++ c.data) ++ (['\n', '`', '`', '`'] ++ delim) := by
    simp [fileBlock, hB, List.append_assoc]
  rw [hA]
  generalize ("File: ".data ++ rel.data ++ "\n\n```\n".data ++ c.data : List Char) = A
  have hrev : (Y ++ (A ++ (['\n', '`', '`', '`'] ++ delim))).reverse
      = '\n' :: '\n' :: '#' :: '#' :: '#' :: '\n' :: '\n' :: '`' ::
          ('`' :: '`' :: '\n' :: (A.reverse ++ Y.reverse)) := by
    simp [List.reverse_append, delim_rev]
  rw [pyRstrip, hrev, dropWhile_strip_delim]
  simp [List.append_assoc]

/-- C1 counterexample: with workspace files a.txt containing hi and
b.txt containing bye, both selected, the document actually produced by
action_export is not the string the claim specifies — the rstrip call
also removes the two newlines that precede the trailing delimiter. -/
theorem c1_counterexample :
    (action_export { temp_dir := some 0 } [("a.txt", some "hi"), ("b.txt", some "bye")]
        ["a.txt", "b.txt"] "out.txt").written
      = some ("out.txt", exportDocument [("a.txt", "hi"), ("b.txt", "bye")]) ∧
    exportDocument [("a.txt", "hi"), ("b.txt", "bye")]
      ≠ ("File: a.txt\n\n```\nhi\n```\n\n###\n\nFile: b.txt\n\n```\nbye\n```\n\n").data :=
  ⟨by decide, by decide⟩

/-- C1 (amended): the produced document is the concatenation of one
block per included file with the single trailing run newline newline
hash hash hash newline newline (the delimiter together with the blank
line that precedes it) trimmed from the very end, so the document ends
directly after the closing code fence; for the two files a.txt = hi and
b.txt = bye the document is the claimed string without its final two
newlines. -/
theorem c1_export_document :
    (∀ (init : List (String × String)) (rel content : String),
        exportDocument (init ++ [(rel, content)]) ++ delim
          = exportBody (init ++ [(rel, content)])) ∧
    exportDocument [("a.txt", "hi"), ("b.txt", "bye")]
      = ("File: a.txt\n\n```\nhi\n```\n\n###\n\nFile: b.txt\n\n```\nbye\n```").data := by
  constructor
  · intro init rel content
    have hbody : exportBody (init ++ [(rel, content)])
        = exportBody init ++ fileBlock rel content := by
      simp [exportBody]
    rw [exportDocument, hbody]
    exact pyRstrip_block _ _ _
  · decide

/-- C2 (code bug exhibit): two consecutive successful fetches in one
session leave two temporary workspaces on disk — the first workspace
(directory 0) is never torn down before the second fetch allocates
directory 1, contradicting the claimed at-most-one-workspace
invariant. -/
theorem c2_workspace_leaked_on_refetch :
    (action_fetch (action_fetch {} "u" "/o/r".data true "") "u" "/o2/r2".data true
        "").existing_dirs = [0, 1] ∧
    (action_fetch (action_fetch {} "u" "/o/r".data true "") "u" "/o2/r2".data true
        "").temp_dir = some 1 :=
  ⟨by decide, by decide⟩

/-- C3 (code bug exhibit): with a.txt decoding fine and bad.bin raising
UnicodeDecodeError, exporting both selected files aborts the whole
export — no destination file is written and the operation fails with
the export error message, instead of skipping only bad.bin. -/
theorem c3_decode_error_aborts_export :
    (action_export { temp_dir := some 0 } [("a.txt", some "hi"), ("bad.bin", none)]
        ["a.txt", "bad.bin"] "out.txt").written = none ∧
    (action_export { temp_dir := some 0 } [("a.txt", some "hi"), ("bad.bin", none)]
        ["a.txt", "bad.bin"] "out.txt").error_message
      = "Error exporting files: UnicodeDecodeError: invalid start byte" :=
  ⟨by decide, by decide⟩

/-- C7 (code bug exhibit): after two successful exports (the second
arming a new exit timer while timer 0 is still scheduled) two timers
are armed at once, and cancelling disarms only the current instance —
the orphaned timer 0 stays armed and can no longer be cancelled,
contradicting the claimed at-most-one-armed-timer invariant.  The
cancellation itself does clear the reference and issue the
confirmation notice. -/
theorem c7_second_timer_does_not_invalidate_first :
    (action_export (action_export { temp_dir := some 0, repo_name := "r" }
        [("a.txt", some "hi")] ["a.txt"] "out.txt")
        [("a.txt", some "hi")] ["a.txt"] "out.txt").armed_timers = [0, 1] ∧
    (action_cancel_exit (action_export (action_export { temp_dir := some 0, repo_name := "r" }
        [("a.txt", some "hi")] ["a.txt"] "out.txt")
        [("a.txt", some "hi")] ["a.txt"] "out.txt")).armed_timers = [0] ∧
    (action_cancel_exit (action_export (action_export { temp_dir := some 0, repo_name := "r" }
        [("a.txt", some "hi")] ["a.txt"] "out.txt")
        [("a.txt", some "hi")] ["a.txt"] "out.txt")).exit_timer = none ∧
    (action_cancel_exit (action_export (action_export { temp_dir := some 0, repo_name := "r" }
        [("a.txt", some "hi")] ["a.txt"] "out.txt")
        [("a.txt", some "hi")] ["a.txt"] "out.txt")).notices.getLast? =
      some "Automatic exit cancelled." :=
  ⟨by decide, by decide, by decide, by decide⟩

/-- C9: an export invoked with an empty selection while a workspace is
active fails with the no-files-selected error and changes nothing else
of the state — in particular no destination file is written. -/
theorem c9_empty_selection (st : AppState) (fs : List (String × Option String))
    (nameValue : String) (d : Nat) (h : st.temp_dir = some d) :
    action_export st fs [] nameValue = { st with error_message := "No files selected" } := by
  simp [action_export, h]

theorem c9_empty_selection_witness :
    (({ temp_dir := some 3 } : AppState).temp_dir = some 3) ∧
    action_export { temp_dir := some 3 } [] [] "n"
      = { ({ temp_dir := some 3 } : AppState) with error_message := "No files selected" } :=
  ⟨rfl, c9_empty_selection { temp_dir := some 3 } [] "n" 3 rfl⟩

/-- C10: the exact-name and suffix denylists are tested against the
basename, so LICENSE and app.config.js are excluded from the catalog
both at the workspace root and nested under sub, while keep.txt and
sub/keep2.txt survive. -/
theorem c10_denylists_apply_at_every_depth :
    includeFile "LICENSE" = false ∧
    includeFile "app.config.js" = false ∧
    populate_file_list 10 [.file "LICENSE", .file "app.config.js", .file "keep.txt",
        .dir "sub" [.file "LICENSE", .file "app.config.js", .file "keep2.txt"]]
      = [["keep.txt"], ["sub", "keep2.txt"]] :=
  ⟨by decide, by decide, by decide⟩

theorem fetch_cleanup_error_message (st : AppState) (msg : String) :
    (fetch_cleanup st msg).error_message = msg := by
  rcases h : st.temp_dir with _ | d <;> simp [fetch_cleanup, h]

theorem fetch_cleanup_clone_count (st : AppState) (msg : String) :
    (fetch_cleanup st msg).clone_count = st.clone_count := by
  rcases h : st.temp_dir with _ | d <;> simp [fetch_cleanup, h]

theorem fetch_cleanup_repo_name (st : AppState) (msg : String) :
    (fetch_cleanup st msg).repo_name = st.repo_name := by
  rcases h : st.temp_dir with _ | d <;> simp [fetch_cleanup, h]

theorem unpack_message_ne_empty (tail : String) :
    ("Error: not enough values to unpack (expected at least 3, got " ++ tail) ≠ "" := by
  intro hcontra
  have hd := congrArg String.data hcontra
  rw [String.data_append] at hd
  exact absurd (List.append_eq_nil.mp hd).1 (by decide)

/-- C5: when the URL path splits on the separator into fewer than three
pieces (fewer than two usable segments after the leading one, e.g. an
empty path) the fetch fails with a user-visible error and never spawns
a clone subprocess; when the split has three or more pieces, owner and
repository name are taken from the second and third pieces, any extra
pieces are ignored, and the clone proceeds. -/
theorem c5_reference_parsing (st : AppState) (url : String) (path : List Char)
    (cloneOk : Bool) (stderrText : String) (h : url ≠ "") :
    ((splitSlash path).length < 3 →
      (action_fetch st url path cloneOk stderrText).error_message ≠ "" ∧
      (action_fetch st url path cloneOk stderrText).clone_count = st.clone_count) ∧
    (∀ (s0 owner repo : List Char) (rest : List (List Char)),
      splitSlash path = s0 :: owner :: repo :: rest →
      (action_fetch st url path cloneOk stderrText).repo_name = String.mk repo ∧
      (action_fetch st url path cloneOk stderrText).clone_count = st.clone_count + 1) := by
  have hu : (url == "") = false := beq_eq_false_iff_ne.mpr h
  constructor
  · intro hshort
    rcases hsp : splitSlash path with _ | ⟨a, _ | ⟨b, _ | ⟨c, rest⟩⟩⟩
    · simp only [action_fetch, hu, Bool.false_eq_true, if_false, hsp]
      exact ⟨by rw [fetch_cleanup_error_message]; exact unpack_message_ne_empty _,
        by rw [fetch_cleanup_clone_count]⟩
    · simp only [action_fetch, hu, Bool.false_eq_true, if_false, hsp]
      exact ⟨by rw [fetch_cleanup_error_message]; exact unpack_message_ne_empty _,
        by rw [fetch_cleanup_clone_count]⟩
    · simp only [action_fetch, hu, Bool.false_eq_true, if_false, hsp]
      exact ⟨by rw [fetch_cleanup_error_message]; exact unpack_message_ne_empty _,
        by rw [fetch_cleanup_clone_count]⟩
    · rw [hsp] at hshort
      simp at hshort
      omega
  · intro s0 owner repo rest hsp
    cases cloneOk <;>
      simp [action_fetch, hu, hsp, fetch_cleanup_repo_name, fetch_cleanup_clone_count,
        String.mk]

theorem c5_reference_parsing_witness :
    (("u" : String) ≠ "") ∧
    splitSlash "/o/r/extra".data
      = [[], ['o'], ['r'], ['e', 'x', 't', 'r', 'a']] ∧
    ((action_fetch {} "u" "/o/r/extra".data true "").repo_name = String.mk ['r'] ∧
      (action_fetch {} "u" "/o/r/extra".data true "").clone_count
        = ({} : AppState).clone_count + 1) :=
  ⟨by decide, by decide,
    (c5_reference_parsing {} "u" "/o/r/extra".data true "" (by decide)).2
      [] ['o'] ['r'] [['e', 'x', 't', 'r', 'a']] (by decide)⟩

/-- C6: when the clone subprocess exits with a non-zero status, the
fetch fails with the clone-failure error carrying the captured stderr
text, and the partially populated temporary directory allocated for
this clone is removed again before the operation returns (the workspace
reference is cleared as well). -/
theorem c6_clone_failure (st : AppState) (url : String) (path : List Char)
    (stderrText : String) (s0 owner repo : List Char) (rest : List (List Char))
    (hurl : url ≠ "") (hsplit : splitSlash path = s0 :: owner :: repo :: rest)
    (hfresh : st.next_dir ∉ st.existing_dirs) :
    (action_fetch st url path false stderrText).error_message
      = "Error: Git clone failed: " ++ stderrText ∧
    (action_fetch st url path false stderrText).existing_dirs = st.existing_dirs ∧
    (action_fetch st url path false stderrText).temp_dir = none := by
  have hu : (url == "") = false := beq_eq_false_iff_ne.mpr hurl
  have key : (st.existing_dirs ++ [st.next_dir]).erase st.next_dir = st.existing_dirs := by
    rw [List.erase_append_right _ hfresh, List.erase_cons_head, List.append_nil]
  simp [action_fetch, hu, hsplit, fetch_cleanup, key]

theorem c6_clone_failure_witness :
    (("u" : String) ≠ "") ∧
    splitSlash "/o/r".data = [[], ['o'], ['r']] ∧
    (({} : AppState).next_dir ∉ ({} : AppState).existing_dirs) ∧
    ((action_fetch {} "u" "/o/r".data false "boom").error_message
        = "Error: Git clone failed: " ++ "boom" ∧
      (action_fetch {} "u" "/o/r".data false "boom").existing_dirs
        = ({} : AppState).existing_dirs ∧
      (action_fetch {} "u" "/o/r".data false "boom").temp_dir = none) :=
  ⟨by decide, by decide, by decide,
    c6_clone_failure {} "u" "/o/r".data "boom" [] ['o'] ['r'] []
      (by decide) (by decide) (by decide)⟩

theorem strLe_total (a b : List Char) : strLe a b = true ∨ strLe b a = true := by
  by_cases h : b < a
  · right
    have hnb : ¬ a < b := lt_asymm h
    simp [strLe, strLt, hnb]
  · left
    simp [strLe, strLt, h]

theorem strLe_trans {a b c : List Char} (h1 : strLe a b = true) (h2 : strLe b c = true) :
    strLe a c = true := by
  simp only [strLe, strLt, Bool.not_eq_true', decide_eq_false_iff_not] at h1 h2 ⊢
  exact not_lt.mpr (le_trans (not_lt.mp h1) (not_lt.mp h2))

theorem sortKeyLe_total (a b : List String) : sortKeyLe a b = true ∨ sortKeyLe b a = true := by
  unfold sortKeyLe
  rcases Nat.lt_trichotomy (sort_key a).1 (sort_key b).1 with h | h | h
  · left; simp [h]
  · rcases strLe_total (sort_key a).2 (sort_key b).2 with hs | hs
    · left; simp [h, hs]
    · right; simp [h, hs]
  · right; simp [h]

theorem sortKeyLe_trans (a b c : List String) (h1 : sortKeyLe a b = true)
    (h2 : sortKeyLe b c = true) : sortKeyLe a c = true := by
  unfold sortKeyLe at h1 h2 ⊢
  simp only [Bool.or_eq_true, decide_eq_true_eq, Bool.and_eq_true, beq_iff_eq] at h1 h2 ⊢
  rcases h1 with h1 | ⟨h1e, h1s⟩ <;> rcases h2 with h2 | ⟨h2e, h2s⟩
  · exact Or.inl (lt_trans h1 h2)
  · exact Or.inl (h2e ▸ h1)
  · exact Or.inl (h1e ▸ h2)
  · exact Or.inr ⟨h1e.trans h2e, strLe_trans h1s h2s⟩

theorem pairwise_pySort (le : α → α → Bool)
    (htrans : ∀ a b c, le a b = true → le b c = true → le a c = true)
    (htotal : ∀ a b, le a b = true ∨ le b a = true) (l : List α) :
    (pySort le l).Pairwise (fun a b => le a b = true) := by
  unfold pySort
  haveI : IsTotal α (fun a b => le a b = true) := ⟨fun a b => htotal a b⟩
  haveI : IsTrans α (fun a b => le a b = true) := ⟨fun a b c => htrans a b c⟩
  exact List.sorted_insertionSort _ _

/-- C4: every flat catalog is ordered by the three-tier priority key
(tier 0 for README.md case-insensitively or an entirely uppercase
basename, tier 1 for other root-level files, tier 2 for the rest, each
tier alphabetical by lowercased full path), and for the documented
five-entry example the produced order is LICENSE2, README.md, a.txt,
sub/a.txt, sub/z.txt. -/
theorem c4_flat_sort :
    (∀ (fuel : Nat) (root : List FSEntry),
      (populate_file_list fuel root).Pairwise (fun a b => sortKeyLe a b = true)) ∧
    populate_file_list 10 [.file "a.txt", .file "README.md", .file "LICENSE2",
        .dir "sub" [.file "z.txt", .file "a.txt"]]
      = [["LICENSE2"], ["README.md"], ["a.txt"], ["sub", "a.txt"], ["sub", "z.txt"]] := by
  constructor
  · intro fuel root
    unfold populate_file_list
    exact pairwise_pySort sortKeyLe sortKeyLe_trans sortKeyLe_total _
  · decide

theorem walk_good : ∀ (fuel : Nat) (pre : List String) (es : List FSEntry),
    (∀ s ∈ pre, s ≠ ".git" ∧ isDotName s = false) →
    ∀ p ∈ walk fuel pre es,
      ∃ (q : List String) (n : String), p = q ++ [n] ∧
        (∀ s ∈ q, s ≠ ".git" ∧ isDotName s = false) ∧ includeFile n = true := by
  intro fuel
  induction fuel with
  | zero =>
    intro pre es _ p hp
    simp [walk] at hp
  | succ f ih =>
    intro pre es hpre p hp
    rcases es with _ | ⟨e, es⟩
    · simp [walk] at hp
    rcases e with ⟨n⟩ | ⟨n, cs⟩
    · simp only [walk, List.mem_append] at hp
      rcases hp with h | h
      · rcases hk : includeFile n with _ | _
        · simp [hk] at h
        · simp [hk] at h
          exact ⟨pre, n, h, hpre, hk⟩
      · exact ih pre es hpre p h
    · simp only [walk, List.mem_append] at hp
      rcases hp with h | h
      · rcases hgit : (n == ".git" || isDotName n) with _ | _
        · simp only [hgit, Bool.false_eq_true, if_false] at h
          have hcond := hgit
          simp only [Bool.or_eq_false_iff, beq_eq_false_iff_ne] at hcond
          have hpre2 : ∀ s ∈ pre ++ [n], s ≠ ".git" ∧ isDotName s = false := by
            intro s hs
            rcases List.mem_append.mp hs with hs | hs
            · exact hpre s hs
            · rcases List.mem_singleton.mp hs with rfl
              exact ⟨hcond.1, hcond.2⟩
          exact ih (pre ++ [n]) cs hpre2 p h
        · simp [hgit] at h
      · exact ih pre es hpre p h

theorem mem_populate {fuel : Nat} {root : List FSEntry} {p : List String}
    (hp : p ∈ populate_file_list fuel root) : p ∈ walk fuel [] root := by
  unfold populate_file_list at hp
  have h1 := ((List.perm_insertionSort _ _).mem_iff).mp hp
  rcases List.mem_flatten.mp h1 with ⟨grp, hgrp, hpgrp⟩
  rcases List.mem_map.mp hgrp with ⟨k, _, rfl⟩
  have h2 := ((List.perm_insertionSort _ _).mem_iff).mp hpgrp
  exact (List.mem_filter.mp h2).1

/-- C8: no catalog entry contains the .git segment or any dot-directory
segment, no basename is in the exact-name denylist or carries a
denylisted suffix, and the only dotfile that can appear is
.cursorrules. -/
theorem c8_exclusion_rules (fuel : Nat) (root : List FSEntry) (p : List String)
    (hp : p ∈ populate_file_list fuel root) :
    (∀ s ∈ p, s ≠ ".git") ∧
    (∀ s ∈ p.dropLast, isDotName s = false) ∧
    excluded_files.contains (p.getLastD "") = false ∧
    (∀ pat ∈ excluded_patterns, List.isSuffixOf pat.data (p.getLastD "").data = false) ∧
    (isDotName (p.getLastD "") = true → p.getLastD "" = ".cursorrules") := by
  obtain ⟨q, n, rfl, hq, hn⟩ := walk_good fuel [] root (by simp) p (mem_populate hp)
  have hgl : (q ++ [n]).getLastD "" = n := List.getLastD_concat _ _ _
  have hinc := hn
  simp only [includeFile, Bool.and_eq_true, Bool.not_eq_true', Bool.or_eq_false_iff,
    Bool.and_eq_false_iff, List.any_eq_false] at hinc
  obtain ⟨⟨hdot, hcontains⟩, hpats⟩ := hinc
  have hngit : n ≠ ".git" := by
    intro hne
    rw [hne] at hn
    exact absurd hn (by decide)
  refine ⟨?_, ?_, ?_, ?_, ?_⟩
  · intro s hs
    rcases List.mem_append.mp hs with hs | hs
    · exact (hq s hs).1
    · rcases List.mem_singleton.mp hs with rfl
      exact hngit
  · intro s hs
    rw [List.dropLast_concat] at hs
    exact (hq s hs).2
  · rw [hgl]; exact hcontains
  · intro pat hpat
    have hsfx := hpats pat hpat
    rw [hgl]
    simp only [Bool.eq_false_iff, ne_eq]
    intro htrue
    apply hsfx
    simpa using htrue
  · rw [hgl]
    intro hd
    rcases hdot with hdot | hdot
    · rw [hd] at hdot; cases hdot
    · simpa using hdot

theorem c8_exclusion_rules_witness :
    (["a.txt"] ∈ populate_file_list 5 [.file "a.txt"]) ∧
    ((∀ s ∈ ["a.txt"], s ≠ ".git") ∧
      (∀ s ∈ (["a.txt"] : List String).dropLast, isDotName s = false) ∧
      excluded_files.contains ((["a.txt"] : List String).getLastD "") = false ∧
      (∀ pat ∈ excluded_patterns,
        List.isSuffixOf pat.data (((["a.txt"] : List String).getLastD "")).data = false) ∧
      (isDotName ((["a.txt"] : List String).getLastD "") = true →
        (["a.txt"] : List String).getLastD "" = ".cursorrules")) :=
  ⟨by decide, c8_exclusion_rules 5 [.file "a.txt"] ["a.txt"] (by decide)⟩

end GHExporter
